import Mathlib

/-!
Verification of the credit-card expense bot (`src/main.py`).

The program is a small FastAPI service with two endpoints:
* `/notification` (`handle_notification`) parses a bank notification via a
  language-model call (`extract_transaction_info`) and stores the recognized
  purchase in the global `last_purchase` dict;
* `/webhook` (`telegram_webhook`) classifies the reply text of the user
  (`categorize_purchase`), merges it with `last_purchase` and appends a row
  to a spreadsheet.

The language model and the JSON decoder are external collaborators: they are
modelled as explicit inputs (the possibly-failing reply of the model, and an
arbitrary decoding function), so every theorem quantifies over all their
behaviours.  Python values are embedded as `PyVal`, Python exceptions as
`PyExc`, and each handler is a function from its inputs and the mutable
server state to `Except (PyExc × ServerState) (ServerState × PyVal)`:
an `Except.error` value is an exception escaping the handler, carrying the
server state at the moment of the raise (the handlers only mutate state
after all fallible steps, so the carried state records which side effects
had happened).
-/

/-- Embedding of the Python values the program manipulates (JSON values plus
`None`). A Python `dict` is an association list keyed by strings, as produced
by `json.loads` on an object literal. -/
inductive PyVal where
  | none
  | bool (b : Bool)
  | int (n : Int)
  | str (s : String)
  | list (xs : List PyVal)
  | dict (entries : List (String × PyVal))

/-- Embedding of the Python exceptions the handlers can raise. -/
inductive PyExc where
  | keyError (key : String)
  | attributeError (msg : String)
  | typeError (msg : String)
  | valueError (msg : String)
  | apiError (msg : String)

/-- Python truthiness (`if x:`) for the embedded values: `None`, `False`,
`0`, `""`, `[]` and `{}` are falsy, everything else is truthy. -/
def pyTruthy : PyVal → Bool
  | .none => false
  | .bool b => b
  | .int n => n != 0
  | .str s => s != ""
  | .list xs => !xs.isEmpty
  | .dict es => !es.isEmpty

/-- The whitespace characters stripped by the Python method `str.strip()` (the ASCII
range; the category labels and fences of the program are all ASCII). -/
def pyIsSpace (c : Char) : Bool :=
  c == ' ' || c == '\t' || c == '\n' || c == '\r' || c == '\x0b' || c == '\x0c'

/-- Python `str.strip()`: remove leading and trailing whitespace. -/
def pyStrip (s : String) : String :=
  ⟨((s.data.dropWhile pyIsSpace).reverse.dropWhile pyIsSpace).reverse⟩

/-- Python `str.find(ch)`: index of the first occurrence of the character,
`-1` when absent. -/
def pyFindChar (s : String) (ch : Char) : Int :=
  if s.data.contains ch then (s.data.findIdx (· == ch) : Int) else -1

/-- Python `str.rfind(ch)`: index of the last occurrence of the character,
`-1` when absent. -/
def pyRFindChar (s : String) (ch : Char) : Int :=
  if s.data.contains ch then
    ((s.data.length - 1 - s.data.reverse.findIdx (· == ch) : Nat) : Int)
  else -1

/-- Normalize one bound of a Python slice `s[a:b]` to a position in
`0..len`: negative indices count from the end and clamp at `0`,
non-negative ones clamp at `len`. -/
def pyBound (len : Nat) (i : Int) : Nat :=
  if i < 0 then (i + len).toNat else min i.toNat len

/-- Python string slicing `s[a:b]` (step 1), including negative indices. -/
def pySlice (s : String) (a b : Int) : String :=
  let lo := pyBound s.data.length a
  let hi := pyBound s.data.length b
  ⟨(s.data.drop lo).take (hi - lo)⟩

/-- Python `s.split.. on a newline`: `content.split(chr(10))`. -/
def splitLines (s : String) : List String := s.splitOn "\n"

/-- Python `chr(10).join(lines)`. -/
def joinLines (lines : List String) : String := String.intercalate "\n" lines

/-- The closed category list from `categorize_purchase` in `src/main.py`. -/
def categories : List String :=
  ["Groceries", "Transportation", "Eating Out", "Bills", "Entertainment",
   "Health", "Personal Care", "Education", "Clothing",
   "Travel", "Gifts", "Subscriptions", "Other"]

/-- Function `categorize_purchase` from `src/main.py`, as a function of the text the
model call returned: strip it, and substitute `"Other"` when the result is
not in the closed category list. -/
def categorize_purchase (modelResponse : String) : String :=
  let category := pyStrip modelResponse
  if categories.contains category then category else "Other"

/-- Python `s.startswith(p)`. -/
def pyStartsWith (s p : String) : Bool := p.data.isPrefixOf s.data

/-- Python `s.endswith(p)`. -/
def pyEndsWith (s p : String) : Bool := p.data.isSuffixOf s.data

/-- The payload-selection step of `extract_transaction_info`
(`src/main.py` lines 121-133), applied to the stripped model response:
a ```json fenced response keeps `content[content.find(chr(123)) :
content.rfind(chr(125)) + 1]`, a generic fenced response drops its first
and last line, anything else is passed through. -/
def selectPayload (content : String) : String :=
  if pyStartsWith content "```json" && pyEndsWith content "```" then
    let json_start := pyFindChar content '{'
    let json_end := pyRFindChar content '}' + 1
    pySlice content json_start json_end
  else if pyStartsWith content "```" && pyEndsWith content "```" then
    let lines := splitLines content
    joinLines ((lines.drop 1).dropLast)
  else content

/-- The `return {"is_credit_card": False}` fallback of
the `except` branch of `extract_transaction_info`. -/
def fallbackResult : PyVal := PyVal.dict [("is_credit_card", PyVal.bool false)]

/-- The `try` block of `extract_transaction_info`: take the message content
(`None` raises an `AttributeError` at `.strip()`), strip it, select the JSON
payload, and decode it with the supplied JSON decoder (modelling
`json.loads`, whose exception is a `ValueError`). -/
def extractBody (jsonLoads : String → Except String PyVal)
    (content? : Option String) : Except PyExc PyVal :=
  match content? with
  | Option.none => .error (.attributeError "NoneType object has no attribute strip")
  | some raw =>
    let content := pyStrip raw
    let json_content := selectPayload content
    match jsonLoads json_content with
    | .error e => .error (.valueError e)
    | .ok parsed => .ok parsed

/-- Function `extract_transaction_info` from `src/main.py`.  `modelCall` is the
outcome of the `openai_client.chat.completions.create` call together with the
returned message content; this call sits *before* the `try` block, so its
exception propagates.  Everything inside the `try` block degrades to
`fallbackResult` on failure. -/
def extract_transaction_info (jsonLoads : String → Except String PyVal)
    (modelCall : Except PyExc (Option String)) : Except PyExc PyVal :=
  match modelCall with
  | .error e => .error e
  | .ok content? =>
    match extractBody jsonLoads content? with
    | .ok parsed => .ok parsed
    | .error _ => .ok fallbackResult

/-- Python `repr` for the embedded values (used by `str` on containers). -/
def pyRepr : PyVal → String
  | .none => "None"
  | .bool true => "True"
  | .bool false => "False"
  | .int n => toString n
  | .str s => "\x27" ++ s ++ "\x27"
  | .list xs => "[" ++ String.intercalate ", " (xs.attach.map fun x => pyRepr x.1) ++ "]"
  | .dict es =>
    "\x7b" ++ String.intercalate ", "
      (es.attach.map fun e => "\x27" ++ e.1.1 ++ "\x27: " ++ pyRepr e.1.2) ++ "\x7d"
decreasing_by
  · have h := List.sizeOf_lt_of_mem x.2
    simp
    omega
  · rcases e with ⟨⟨k, v⟩, he⟩
    have h := List.sizeOf_lt_of_mem he
    simp at h
    simp
    omega

/-- Python `str(v)`, as used by f-strings and `str(...)` in the handlers:
the identity on strings, `repr` otherwise. -/
def pyStr (v : PyVal) : String :=
  match v with
  | .str s => s
  | other => pyRepr other

/-- Python `v.get(key, default)` / `v.get(key)` (with `default = None`):
only defined on dicts, an `AttributeError` on every other value.  A dict
lookup returns the first binding of the key, or the default. -/
def pyGetD (v : PyVal) (key : String) (default : PyVal) : Except PyExc PyVal :=
  match v with
  | .dict es => .ok ((es.lookup key).getD default)
  | _ => .error (.attributeError "object has no attribute get")

/-- Python `v[key]` subscription: a missing key is a `KeyError`, a non-dict
receiver a `TypeError`. -/
def pyIndex (v : PyVal) (key : String) : Except PyExc PyVal :=
  match v with
  | .dict es =>
    match es.lookup key with
    | some x => .ok x
    | Option.none => .error (.keyError key)
  | _ => .error (.typeError "object is not subscriptable")

/-- The mutable state of the server process together with its outbound
effects: the global `last_purchase` dict, the Telegram messages sent
(recipient chat id and text, in order), and the rows appended to the
spreadsheet (in order). -/
structure ServerState where
  last_purchase : PyVal
  sent : List (String × String)
  ledger : List (List PyVal)

/-- The state at process start: `last_purchase = {}` (line 28 of
`src/main.py`), nothing sent, nothing appended. -/
def initState : ServerState :=
  { last_purchase := PyVal.dict [], sent := [], ledger := [] }

/-- The `TELEGRAM_CHAT_ID` environment value the notification handler sends
its confirmation to (opaque configuration; no theorem depends on it). -/
def CHAT_ID : String := "TELEGRAM_CHAT_ID"

/-- The dict literal written to `last_purchase` on a recognized
transaction. -/
def mkLastPurchase (amount currency raw_description : PyVal) : PyVal :=
  PyVal.dict
    [("amount", amount), ("currency", currency),
     ("raw_description", raw_description)]

/-- The `return {"ok": True}` response of both endpoints. -/
def okResponse : PyVal := PyVal.dict [("ok", PyVal.bool true)]

/-- The confirmation text of the notification handler:
`You spent {amount} {currency} at {raw_description}. What was it?` with the
description in apostrophes. -/
def spentMessage (amount currency raw_description : PyVal) : String :=
  "You spent " ++ pyStr amount ++ " " ++ pyStr currency ++ " at \x27" ++
    pyStr raw_description ++ "\x27. What was it?"

/-- Function `handle_notification` (the POST `/notification` endpoint of
`src/main.py`): read the `notification` field of the body (default `""`),
run `extract_transaction_info`, and if the `is_credit_card` entry of the result
is truthy, overwrite `last_purchase` with the three indexed fields and send
the confirmation message; always answer `{"ok": True}` when no exception is
raised.  `data` is the decoded request body. -/
def handle_notification (jsonLoads : String → Except String PyVal)
    (modelCall : Except PyExc (Option String)) (data : PyVal)
    (st : ServerState) : Except (PyExc × ServerState) (ServerState × PyVal) :=
  match pyGetD data "notification" (PyVal.str "") with
  | .error e => .error (e, st)
  | .ok _notification_text =>
    match extract_transaction_info jsonLoads modelCall with
    | .error e => .error (e, st)
    | .ok txn_info =>
      match pyGetD txn_info "is_credit_card" PyVal.none with
      | .error e => .error (e, st)
      | .ok flag =>
        if pyTruthy flag then
          match pyIndex txn_info "amount" with
          | .error e => .error (e, st)
          | .ok amount =>
            match pyIndex txn_info "currency" with
            | .error e => .error (e, st)
            | .ok currency =>
              match pyIndex txn_info "raw_description" with
              | .error e => .error (e, st)
              | .ok raw_description =>
                let st1 := { st with
                  last_purchase := mkLastPurchase amount currency raw_description }
                let st2 := { st1 with
                  sent := st1.sent ++
                    [(CHAT_ID, spentMessage amount currency raw_description)] }
                .ok (st2, okResponse)
        else .ok (st, okResponse)

/-- Function `telegram_webhook` (the POST `/webhook` endpoint of `src/main.py`):
navigate `body.message`, `message.chat.id` and `message.text`; an empty
(falsy) text is acknowledged with no action; otherwise classify the text
(`classifyCall` is the outcome of the model call inside
`categorize_purchase`, made before the store is touched), read the three
fields of `last_purchase` by unguarded subscription, append the merged
5-element row to the spreadsheet and send the acknowledgment. -/
def telegram_webhook (classifyCall : Except PyExc (Option String))
    (body : PyVal) (st : ServerState) :
    Except (PyExc × ServerState) (ServerState × PyVal) :=
  match pyGetD body "message" (PyVal.dict []) with
  | .error e => .error (e, st)
  | .ok message =>
  match pyGetD message "chat" (PyVal.dict []) with
  | .error e => .error (e, st)
  | .ok chat =>
  match pyGetD chat "id" PyVal.none with
  | .error e => .error (e, st)
  | .ok idv =>
  let chat_id := pyStr idv
  match pyGetD message "text" (PyVal.str "") with
  | .error e => .error (e, st)
  | .ok text =>
  if !pyTruthy text then .ok (st, okResponse)
  else
    match classifyCall with
    | .error e => .error (e, st)
    | .ok Option.none =>
      .error (.attributeError "NoneType object has no attribute strip", st)
    | .ok (some classifyResponse) =>
      let category := categorize_purchase classifyResponse
      match pyIndex st.last_purchase "amount" with
      | .error e => .error (e, st)
      | .ok amount =>
        match pyIndex st.last_purchase "currency" with
        | .error e => .error (e, st)
        | .ok currency =>
          match pyIndex st.last_purchase "raw_description" with
          | .error e => .error (e, st)
          | .ok raw_description =>
            let row := [amount, currency, raw_description, text, PyVal.str category]
            let st1 := { st with ledger := st.ledger ++ [row] }
            let st2 := { st1 with
              sent := st1.sent ++ [(chat_id, "Got it. Categorized as: " ++ category)] }
            .ok (st2, okResponse)

/-- The Telegram update body of the end-to-end reply scenario:
`message.chat.id` and `message.text`. -/
def mkUpdate (idv : PyVal) (t : String) : PyVal :=
  PyVal.dict
    [("message", PyVal.dict
      [("chat", PyVal.dict [("id", idv)]), ("text", PyVal.str t)])]

/-- C1: for every model-response string `r`, `categorize_purchase` returns
`r` stripped of surrounding whitespace when that stripped string is
byte-for-byte one of the 13 categories, and returns `"Other"` otherwise;
hence the returned category is always a member of the closed 13-value
set. -/
theorem C1_categorize_closed_set (r : String) :
    categorize_purchase r =
      (if pyStrip r ∈ categories then pyStrip r else "Other") ∧
    categorize_purchase r ∈ categories := by
  have hcontains : categories.contains (pyStrip r) = decide (pyStrip r ∈ categories) := by
    simp [List.contains]
  constructor
  · simp only [categorize_purchase, hcontains]
    by_cases h : pyStrip r ∈ categories <;> simp [h]
  · simp only [categorize_purchase, hcontains]
    by_cases h : pyStrip r ∈ categories <;> simp [h]
    decide

/-- C2 counterexample: the claim says `extract_transaction_info` never
raises past its boundary for *every* behaviour of the language-model call.
But in `src/main.py` the `openai_client.chat.completions.create` call (line
107) sits *before* the `try` block (line 118): when the model call itself
fails, the exception propagates instead of returning
`{"is_credit_card": False}`. -/
theorem C2_counterexample_model_call_raises :
    extract_transaction_info (fun _ => Except.error "Expecting value")
        (Except.error (PyExc.apiError "APIConnectionError")) =
      Except.error (PyExc.apiError "APIConnectionError") ∧
    ∀ v, extract_transaction_info (fun _ => Except.error "Expecting value")
        (Except.error (PyExc.apiError "APIConnectionError")) ≠
      Except.ok v := by
  refine ⟨rfl, fun v h => ?_⟩
  exact Except.noConfusion h

/-- C2 amended: *when the language-model call returns a response*,
`extract_transaction_info` never raises: it returns some value for every
response; absent content or a payload the JSON decoder rejects (malformed
JSON, model refusal) yields exactly `{"is_credit_card": False}`, and a
decoded payload is returned as-is (the schema is not re-validated).  An
exception of the model call itself, made before the `try` block, propagates
past the boundary. -/
theorem C2_amended_no_raise_when_model_returns
    (jsonLoads : String → Except String PyVal) (content? : Option String) :
    (∃ v, extract_transaction_info jsonLoads (Except.ok content?) =
      Except.ok v) ∧
    (content? = Option.none →
      extract_transaction_info jsonLoads (Except.ok content?) =
        Except.ok fallbackResult) ∧
    (∀ s e, content? = some s →
      jsonLoads (selectPayload (pyStrip s)) = Except.error e →
      extract_transaction_info jsonLoads (Except.ok content?) =
        Except.ok fallbackResult) ∧
    (∀ s v, content? = some s →
      jsonLoads (selectPayload (pyStrip s)) = Except.ok v →
      extract_transaction_info jsonLoads (Except.ok content?) = Except.ok v) ∧
    (∀ e, extract_transaction_info jsonLoads (Except.error e) =
      Except.error e) := by
  refine ⟨?_, ?_, ?_, ?_, fun e => rfl⟩
  · cases content? with
    | none => exact ⟨fallbackResult, rfl⟩
    | some s =>
      cases h : jsonLoads (selectPayload (pyStrip s)) with
      | error e =>
        exact ⟨fallbackResult, by simp [extract_transaction_info, extractBody, h]⟩
      | ok v =>
        exact ⟨v, by simp [extract_transaction_info, extractBody, h]⟩
  · rintro rfl
    rfl
  · rintro s e rfl h
    simp [extract_transaction_info, extractBody, h]
  · rintro s v rfl h
    simp [extract_transaction_info, extractBody, h]

/-- Witness for the amended C2, at the model response
` ```json {"is_credit_card": false} ``` `-like refusal text `not json`,
with a decoder that rejects it (as `json.loads` does). -/
theorem C2_amended_witness :
    ((Option.some "not json" : Option String) = Option.none →
      extract_transaction_info (fun _ => Except.error "Expecting value")
        (Except.ok (some "not json")) = Except.ok fallbackResult) ∧
    extract_transaction_info (fun _ => Except.error "Expecting value")
      (Except.ok (some "not json")) = Except.ok fallbackResult := by
  have h := C2_amended_no_raise_when_model_returns
    (fun _ => Except.error "Expecting value") (some "not json")
  exact ⟨h.2.1, h.2.2.1 "not json" "Expecting value" rfl rfl⟩

/-- The position of the first occurrence of `ch` in `s` (meaningful when
`ch` occurs). -/
def firstIndexOf (s : String) (ch : Char) : Nat := s.data.findIdx (· == ch)

/-- The position of the last occurrence of `ch` in `s` (meaningful when
`ch` occurs). -/
def lastIndexOf (s : String) (ch : Char) : Nat :=
  s.data.length - 1 - s.data.reverse.findIdx (· == ch)

/-- Modelled from the spec wording of the unwrapping policy: the substring
of `s` from position `i` to position `j` *inclusive* (empty when
`j < i`). -/
def substrInclusive (s : String) (i j : Nat) : String :=
  ⟨(s.data.drop i).take (j + 1 - i)⟩

theorem contains_to_exists_beq {l : List Char} {ch : Char}
    (h : l.contains ch = true) : ∃ x ∈ l, (x == ch) = true := by
  have hm : ch ∈ l := List.elem_iff.mp h
  exact ⟨ch, hm, beq_self_eq_true ch⟩

theorem firstIndexOf_lt_length {s : String} {ch : Char}
    (h : s.data.contains ch = true) : firstIndexOf s ch < s.data.length :=
  List.findIdx_lt_length_of_exists (contains_to_exists_beq h)

theorem reverse_findIdx_lt_length {s : String} {ch : Char}
    (h : s.data.contains ch = true) :
    s.data.reverse.findIdx (· == ch) < s.data.length := by
  have hm : ch ∈ s.data.reverse := by
    rw [List.mem_reverse]
    exact List.elem_iff.mp h
  have h2 : s.data.reverse.findIdx (· == ch) < s.data.reverse.length :=
    List.findIdx_lt_length_of_exists ⟨ch, hm, beq_self_eq_true ch⟩
  simpa using h2

theorem pyBound_natCast (len n : Nat) : pyBound len (n : Int) = min n len := by
  unfold pyBound
  rw [if_neg (by omega)]
  rw [Int.toNat_natCast]

/-- The slice `content[content.find(a) : content.rfind(b) + 1]` of the
source equals the substring from the first occurrence of `a` to the last
occurrence of `b` inclusive, when both characters occur. -/
theorem pySlice_find_rfind (c : String) (a b : Char)
    (ha : c.data.contains a = true) (hb : c.data.contains b = true) :
    pySlice c (pyFindChar c a) (pyRFindChar c b + 1) =
      substrInclusive c (firstIndexOf c a) (lastIndexOf c b) := by
  have hi : firstIndexOf c a < c.data.length := firstIndexOf_lt_length ha
  have hr : c.data.reverse.findIdx (· == b) < c.data.length :=
    reverse_findIdx_lt_length hb
  have hma : a ∈ c.data := (List.elem_iff).mp ha
  have hmb : b ∈ c.data := (List.elem_iff).mp hb
  have hfind : pyFindChar c a = ((firstIndexOf c a : Nat) : Int) := by
    simp [pyFindChar, ha, hma, firstIndexOf]
  have hrfind : pyRFindChar c b = ((lastIndexOf c b : Nat) : Int) := by
    simp [pyRFindChar, hb, hmb, lastIndexOf]
  have hj1 : lastIndexOf c b + 1 ≤ c.data.length := by
    unfold lastIndexOf
    omega
  rw [hfind, hrfind]
  unfold pySlice substrInclusive
  have h1 : pyBound c.data.length ((firstIndexOf c a : Nat) : Int) =
      firstIndexOf c a := by
    rw [pyBound_natCast]
    omega
  have h2 : pyBound c.data.length (((lastIndexOf c b : Nat) : Int) + 1) =
      lastIndexOf c b + 1 := by
    have : (((lastIndexOf c b : Nat) : Int) + 1) =
        ((lastIndexOf c b + 1 : Nat) : Int) := by push_cast; ring
    rw [this, pyBound_natCast]
    omega
  simp only [h1, h2]

/-- C3: for every trimmed model-response string `c`, the payload selection
of `extract_transaction_info` follows the three-branch unwrapping policy:
a response that starts with the JSON-tagged fence and ends with the closing
fence keeps the substring from the first curly opening brace to the last
curly closing brace inclusive (both braces occurring); otherwise a response
that starts and ends with a generic fence drops its first and last line;
any other response is the payload itself. -/
theorem C3_payload_selection (c : String) :
    ((pyStartsWith c "```json" && pyEndsWith c "```") = true →
      c.data.contains '{' = true → c.data.contains '}' = true →
      selectPayload c =
        substrInclusive c (firstIndexOf c '{') (lastIndexOf c '}')) ∧
    ((pyStartsWith c "```json" && pyEndsWith c "```") = false →
      (pyStartsWith c "```" && pyEndsWith c "```") = true →
      selectPayload c = joinLines (((splitLines c).drop 1).dropLast)) ∧
    ((pyStartsWith c "```json" && pyEndsWith c "```") = false →
      (pyStartsWith c "```" && pyEndsWith c "```") = false →
      selectPayload c = c) := by
  refine ⟨?_, ?_, ?_⟩
  · intro hfence hopen hclose
    unfold selectPayload
    rw [if_pos hfence]
    exact pySlice_find_rfind c '{' '}' hopen hclose
  · intro hjson hfence
    unfold selectPayload
    rw [if_neg (by simp [hjson]), if_pos hfence]
  · intro hjson hfence
    unfold selectPayload
    rw [if_neg (by simp [hjson]), if_neg (by simp [hfence])]

/-- Witness for C3: the three branches at concrete responses — a
JSON-tagged fenced object, a generic fenced block, and a bare payload. -/
theorem C3_payload_selection_witness :
    (selectPayload "```json\n\x7b\"a\": 1\x7d\n```" =
      substrInclusive "```json\n\x7b\"a\": 1\x7d\n```"
        (firstIndexOf "```json\n\x7b\"a\": 1\x7d\n```" '{')
        (lastIndexOf "```json\n\x7b\"a\": 1\x7d\n```" '}')) ∧
    (selectPayload "```\nraw\n```" =
      joinLines (((splitLines "```\nraw\n```").drop 1).dropLast)) ∧
    (selectPayload "plain text" = "plain text") :=
  ⟨(C3_payload_selection "```json\n\x7b\"a\": 1\x7d\n```").1
      (by decide) (by decide) (by decide),
   (C3_payload_selection "```\nraw\n```").2.1 (by decide) (by decide),
   (C3_payload_selection "plain text").2.2 (by decide) (by decide)⟩

/-- Helper: a reply with truthy text against a store holding the three
fields appends exactly the merged 5-element row. -/
theorem webhook_appends_row_of_store (r : String)
    (idv amount currency raw_description : PyVal) (t : String) (ht : t ≠ "")
    (st : ServerState)
    (hst : st.last_purchase = mkLastPurchase amount currency raw_description) :
    ∃ st', telegram_webhook (Except.ok (some r)) (mkUpdate idv t) st =
        Except.ok (st', okResponse) ∧
      st'.ledger = st.ledger ++
        [[amount, currency, raw_description, PyVal.str t,
          PyVal.str (categorize_purchase r)]] := by
  have htruthy : pyTruthy (PyVal.str t) = true := by
    simpa [pyTruthy] using ht
  refine ⟨{ st with
      ledger := st.ledger ++
        [[amount, currency, raw_description, PyVal.str t,
          PyVal.str (categorize_purchase r)]],
      sent := st.sent ++
        [(pyStr idv, "Got it. Categorized as: " ++ categorize_purchase r)] },
    ?_, by simp⟩
  unfold telegram_webhook
  simp [mkUpdate, pyGetD, pyIndex, hst, mkLastPurchase, htruthy,
    List.lookup_cons]

/-- C4: for every reply with non-empty text `t` arriving while
`last_purchase` holds a stored transaction, and for every classifier
response `r` (so every category `categorize_purchase r` produced on `t`),
the row appended to the ledger is exactly the 5-element list
`[amount, currency, raw_description, t, category]` in that order. -/
theorem C4_reply_appends_merged_row (r : String)
    (idv amount currency raw_description : PyVal) (t : String) (ht : t ≠ "")
    (st : ServerState)
    (hst : st.last_purchase = mkLastPurchase amount currency raw_description) :
    ∃ st', telegram_webhook (Except.ok (some r)) (mkUpdate idv t) st =
        Except.ok (st', okResponse) ∧
      st'.ledger = st.ledger ++
        [[amount, currency, raw_description, PyVal.str t,
          PyVal.str (categorize_purchase r)]] :=
  webhook_appends_row_of_store r idv amount currency raw_description t ht st hst

/-- Witness for C4: the end-to-end reply scenario — store holding
`(2349, "CLP", "Falabella")`, reply `lunch with friends`, classifier
answering `Eating Out`. -/
theorem C4_reply_appends_merged_row_witness :
    ∃ st', telegram_webhook (Except.ok (some "Eating Out"))
        (mkUpdate (PyVal.int 42) "lunch with friends")
        { last_purchase := mkLastPurchase (PyVal.int 2349) (PyVal.str "CLP")
            (PyVal.str "Falabella"), sent := [], ledger := [] } =
      Except.ok (st', okResponse) ∧
    st'.ledger = ([] : List (List PyVal)) ++
      [[PyVal.int 2349, PyVal.str "CLP", PyVal.str "Falabella",
        PyVal.str "lunch with friends",
        PyVal.str (categorize_purchase "Eating Out")]] :=
  C4_reply_appends_merged_row "Eating Out" (PyVal.int 42) (PyVal.int 2349)
    (PyVal.str "CLP") (PyVal.str "Falabella") "lunch with friends"
    (by decide) _ rfl

/-- C5 counterexample: the claim says *every* notification whose extraction
result does not have `is_credit_card` true makes the handler terminate
successfully.  But when the model answers the valid JSON text `[]` (a
result with no `is_credit_card` at all), `json.loads` returns a list and
`txn_info.get("is_credit_card")` raises an `AttributeError` — the handler
does not terminate successfully. -/
theorem C5_counterexample_nondict_extraction :
    handle_notification
        (fun s => if s = "[]" then Except.ok (PyVal.list [])
                  else Except.error "Expecting value")
        (Except.ok (some "[]"))
        (PyVal.dict [("notification", PyVal.str "some notification")])
        initState =
      Except.error
        (PyExc.attributeError "object has no attribute get", initState) ∧
    ∀ out, handle_notification
        (fun s => if s = "[]" then Except.ok (PyVal.list [])
                  else Except.error "Expecting value")
        (Except.ok (some "[]"))
        (PyVal.dict [("notification", PyVal.str "some notification")])
        initState ≠ Except.ok out := by
  have hE : handle_notification
      (fun s => if s = "[]" then Except.ok (PyVal.list [])
                else Except.error "Expecting value")
      (Except.ok (some "[]"))
      (PyVal.dict [("notification", PyVal.str "some notification")])
      initState =
    Except.error
      (PyExc.attributeError "object has no attribute get", initState) := rfl
  refine ⟨hE, fun out h => ?_⟩
  rw [hE] at h
  exact Except.noConfusion h

/-- C5 amended: for every notification whose extraction result is a *dict*
in which `is_credit_card` is missing or not truthy (including the
extraction-failure fallback `{"is_credit_card": False}`), the notification
handler terminates successfully with no side effects: the state (store,
sent messages, ledger) is returned unchanged with the `{"ok": True}`
response — so processing the same non-transaction text twice yields the
same no-op outcome both times.  (A non-dict extraction result instead
raises, see the counterexample.) -/
theorem C5_amended_noop_when_not_credit_card
    (jsonLoads : String → Except String PyVal)
    (modelCall : Except PyExc (Option String)) (ds : List (String × PyVal))
    (st : ServerState) (es : List (String × PyVal))
    (hex : extract_transaction_info jsonLoads modelCall =
      Except.ok (PyVal.dict es))
    (hflag : pyTruthy ((es.lookup "is_credit_card").getD PyVal.none) =
      false) :
    handle_notification jsonLoads modelCall (PyVal.dict ds) st =
      Except.ok (st, okResponse) := by
  unfold handle_notification
  simp [pyGetD, hex, hflag]

/-- Witness for the amended C5: the model answers prose, the decoder
rejects it, extraction falls back to `{"is_credit_card": False}`, and the
handler is a no-op returning `{"ok": True}`. -/
theorem C5_amended_noop_witness :
    handle_notification (fun _ => Except.error "Expecting value")
        (Except.ok (some "not a transaction"))
        (PyVal.dict [("notification", PyVal.str "hello")]) initState =
      Except.ok (initState, okResponse) :=
  C5_amended_noop_when_not_credit_card
    (fun _ => Except.error "Expecting value")
    (Except.ok (some "not a transaction"))
    [("notification", PyVal.str "hello")] initState
    [("is_credit_card", PyVal.bool false)] rfl rfl

/-- A schema-conforming extraction result: truthy flag first, then the
three data fields, in the order of the JSON schema in the prompt. -/
def mkTxn (flag amount currency raw_description : PyVal) : PyVal :=
  PyVal.dict
    [("is_credit_card", flag), ("amount", amount), ("currency", currency),
     ("raw_description", raw_description)]

/-- Helper: a notification whose extraction yields a schema-conforming dict
with truthy `is_credit_card` overwrites `last_purchase` and sends the
confirmation. -/
theorem handle_notification_stores
    (jsonLoads : String → Except String PyVal)
    (modelCall : Except PyExc (Option String)) (ds : List (String × PyVal))
    (st : ServerState) (f a c r : PyVal)
    (hex : extract_transaction_info jsonLoads modelCall =
      Except.ok (mkTxn f a c r))
    (hf : pyTruthy f = true) :
    handle_notification jsonLoads modelCall (PyVal.dict ds) st =
      Except.ok
        ({ st with
            last_purchase := mkLastPurchase a c r,
            sent := st.sent ++ [(CHAT_ID, spentMessage a c r)] },
          okResponse) := by
  unfold handle_notification
  simp [pyGetD, hex, mkTxn, pyIndex, List.lookup_cons, hf, mkLastPurchase]

/-- C6: the store write is an unconditional last-writer-wins overwrite —
after two sequential qualifying notifications (extractions A then B), the
store holds exactly the fields of B, and any subsequent reply merges
against the `amount`, `currency` and `raw_description` of B. -/
theorem C6_store_last_writer_wins
    (loadsA : String → Except String PyVal)
    (mcA : Except PyExc (Option String)) (dsA : List (String × PyVal))
    (loadsB : String → Except String PyVal)
    (mcB : Except PyExc (Option String)) (dsB : List (String × PyVal))
    (fA aA cA rA fB aB cB rB : PyVal)
    (hA : extract_transaction_info loadsA mcA = Except.ok (mkTxn fA aA cA rA))
    (hfA : pyTruthy fA = true)
    (hB : extract_transaction_info loadsB mcB = Except.ok (mkTxn fB aB cB rB))
    (hfB : pyTruthy fB = true) (st0 : ServerState) :
    ∃ stA stB,
      handle_notification loadsA mcA (PyVal.dict dsA) st0 =
        Except.ok (stA, okResponse) ∧
      handle_notification loadsB mcB (PyVal.dict dsB) stA =
        Except.ok (stB, okResponse) ∧
      stB.last_purchase = mkLastPurchase aB cB rB ∧
      ∀ r idv t, t ≠ "" →
        ∃ stC, telegram_webhook (Except.ok (some r)) (mkUpdate idv t) stB =
            Except.ok (stC, okResponse) ∧
          stC.ledger = stB.ledger ++
            [[aB, cB, rB, PyVal.str t, PyVal.str (categorize_purchase r)]] := by
  refine ⟨_, _,
    handle_notification_stores loadsA mcA dsA st0 fA aA cA rA hA hfA,
    handle_notification_stores loadsB mcB dsB _ fB aB cB rB hB hfB,
    rfl, ?_⟩
  intro r idv t ht
  exact webhook_appends_row_of_store r idv aB cB rB t ht _ rfl

/-- Witness for C6: two concrete recognized notifications (StoreA then
StoreB), then the reply `dinner`. -/
theorem C6_store_last_writer_wins_witness :
    ∃ stA stB,
      handle_notification
          (fun s => if s = "\x7b\"is_credit_card\": true, \"amount\": 100, \"currency\": \"USD\", \"raw_description\": \"StoreA\"\x7d"
            then Except.ok (mkTxn (PyVal.bool true) (PyVal.int 100)
              (PyVal.str "USD") (PyVal.str "StoreA"))
            else Except.error "Expecting value")
          (Except.ok (some "\x7b\"is_credit_card\": true, \"amount\": 100, \"currency\": \"USD\", \"raw_description\": \"StoreA\"\x7d"))
          (PyVal.dict [("notification", PyVal.str "compra A")]) initState =
        Except.ok (stA, okResponse) ∧
      handle_notification
          (fun s => if s = "\x7b\"is_credit_card\": true, \"amount\": 200, \"currency\": \"CLP\", \"raw_description\": \"StoreB\"\x7d"
            then Except.ok (mkTxn (PyVal.bool true) (PyVal.int 200)
              (PyVal.str "CLP") (PyVal.str "StoreB"))
            else Except.error "Expecting value")
          (Except.ok (some "\x7b\"is_credit_card\": true, \"amount\": 200, \"currency\": \"CLP\", \"raw_description\": \"StoreB\"\x7d"))
          (PyVal.dict [("notification", PyVal.str "compra B")]) stA =
        Except.ok (stB, okResponse) ∧
      stB.last_purchase =
        mkLastPurchase (PyVal.int 200) (PyVal.str "CLP") (PyVal.str "StoreB") ∧
      ∀ r idv t, t ≠ "" →
        ∃ stC, telegram_webhook (Except.ok (some r)) (mkUpdate idv t) stB =
            Except.ok (stC, okResponse) ∧
          stC.ledger = stB.ledger ++
            [[PyVal.int 200, PyVal.str "CLP", PyVal.str "StoreB",
              PyVal.str t, PyVal.str (categorize_purchase r)]] :=
  C6_store_last_writer_wins _ _ _ _ _ _
    (PyVal.bool true) (PyVal.int 100) (PyVal.str "USD") (PyVal.str "StoreA")
    (PyVal.bool true) (PyVal.int 200) (PyVal.str "CLP") (PyVal.str "StoreB")
    (by rfl) rfl (by rfl) rfl initState

/-- C7: the reply path reads `last_purchase` without consuming it — for
every reply, classifier behaviour and state, the store after the webhook
equals the store before, both on normal completion and when an exception
escapes; hence repeated replies with no intervening notification merge
against the same stored transaction. -/
theorem C7_webhook_preserves_store (classifyCall : Except PyExc (Option String))
    (body : PyVal) (st : ServerState) :
    (∀ st' resp, telegram_webhook classifyCall body st =
        Except.ok (st', resp) → st'.last_purchase = st.last_purchase) ∧
    (∀ e st', telegram_webhook classifyCall body st =
        Except.error (e, st') → st'.last_purchase = st.last_purchase) := by
  constructor
  · intro st' resp h
    unfold telegram_webhook at h
    repeat' split at h
    all_goals first
      | exact Except.noConfusion h
      | (injection h with h'; injection h' with h1 h2; rw [← h1])
  · intro e st' h
    unfold telegram_webhook at h
    repeat' split at h
    all_goals first
      | exact Except.noConfusion h
      | (injection h with h'; injection h' with h1 h2; rw [← h2])

/-- Witness for C7: a concrete successful reply run and a concrete
erroring run (empty store) both leave the store untouched. -/
theorem C7_webhook_preserves_store_witness :
    ({ last_purchase := mkLastPurchase (PyVal.int 5) (PyVal.str "USD")
          (PyVal.str "Shop"),
        sent := [("7", "Got it. Categorized as: " ++ categorize_purchase "Other")],
        ledger := [[PyVal.int 5, PyVal.str "USD", PyVal.str "Shop",
          PyVal.str "coffee", PyVal.str (categorize_purchase "Other")]]
      } : ServerState).last_purchase =
      ({ last_purchase := mkLastPurchase (PyVal.int 5) (PyVal.str "USD")
            (PyVal.str "Shop"), sent := [], ledger := [] } :
          ServerState).last_purchase :=
  (C7_webhook_preserves_store (Except.ok (some "Other"))
      (mkUpdate (PyVal.str "7") "coffee")
      { last_purchase := mkLastPurchase (PyVal.int 5) (PyVal.str "USD")
          (PyVal.str "Shop"), sent := [], ledger := [] }).1
    _ okResponse rfl

/-- C8 counterexample: the claim says both endpoints always return
`{"ok": True}` for every outcome of internal processing.  But when the
model answers the valid JSON object containing only
`"is_credit_card": true`, the unguarded `txn_info["amount"]` raises a
`KeyError` and `/notification` returns no success response at all. -/
theorem C8_counterexample_keyerror_escapes :
    handle_notification
        (fun s => if s = "\x7b\"is_credit_card\": true\x7d"
          then Except.ok (PyVal.dict [("is_credit_card", PyVal.bool true)])
          else Except.error "Expecting value")
        (Except.ok (some "\x7b\"is_credit_card\": true\x7d"))
        (PyVal.dict [("notification", PyVal.str "compra")]) initState =
      Except.error (PyExc.keyError "amount", initState) ∧
    ∀ out, handle_notification
        (fun s => if s = "\x7b\"is_credit_card\": true\x7d"
          then Except.ok (PyVal.dict [("is_credit_card", PyVal.bool true)])
          else Except.error "Expecting value")
        (Except.ok (some "\x7b\"is_credit_card\": true\x7d"))
        (PyVal.dict [("notification", PyVal.str "compra")]) initState ≠
      Except.ok out := by
  have hE : handle_notification
      (fun s => if s = "\x7b\"is_credit_card\": true\x7d"
        then Except.ok (PyVal.dict [("is_credit_card", PyVal.bool true)])
        else Except.error "Expecting value")
      (Except.ok (some "\x7b\"is_credit_card\": true\x7d"))
      (PyVal.dict [("notification", PyVal.str "compra")]) initState =
    Except.error (PyExc.keyError "amount", initState) := rfl
  refine ⟨hE, fun out h => ?_⟩
  rw [hE] at h
  exact Except.noConfusion h

/-- C8 amended: every run of either endpoint that completes *without an
uncaught exception* answers exactly `{"ok": True}` — in particular
non-recognition and extraction-parse failure still report success — but a
run that raises (missing fields, empty store) escapes with the exception
instead of a success response. -/
theorem C8_amended_ok_unless_exception
    (jsonLoads : String → Except String PyVal)
    (modelCall : Except PyExc (Option String)) (data : PyVal)
    (classifyCall : Except PyExc (Option String)) (body : PyVal)
    (st : ServerState) :
    (∀ out, handle_notification jsonLoads modelCall data st =
      Except.ok out → out.2 = okResponse) ∧
    (∀ out, telegram_webhook classifyCall body st =
      Except.ok out → out.2 = okResponse) := by
  constructor
  · intro out h
    unfold handle_notification at h
    repeat' split at h
    all_goals first
      | exact Except.noConfusion h
      | (injection h with h'; rw [← h'])
  · intro out h
    unfold telegram_webhook at h
    repeat' split at h
    all_goals first
      | exact Except.noConfusion h
      | (injection h with h'; rw [← h'])

/-- Witness for the amended C8: a no-op notification run and a successful
reply run, both answering `{"ok": True}`. -/
theorem C8_amended_ok_unless_exception_witness :
    ((({ last_purchase := mkLastPurchase (PyVal.int 1) (PyVal.str "USD")
            (PyVal.str "S"), sent := [], ledger := [] } : ServerState),
        okResponse) : ServerState × PyVal).2 = okResponse ∧
    ((({ last_purchase := mkLastPurchase (PyVal.int 1) (PyVal.str "USD")
            (PyVal.str "S"),
          sent := [("7", "Got it. Categorized as: " ++ categorize_purchase "Bills")],
          ledger := [[PyVal.int 1, PyVal.str "USD", PyVal.str "S",
            PyVal.str "tea", PyVal.str (categorize_purchase "Bills")]] } :
          ServerState),
        okResponse) : ServerState × PyVal).2 = okResponse :=
  ⟨(C8_amended_ok_unless_exception (fun _ => Except.error "Expecting value")
      (Except.ok (some "prose")) (PyVal.dict [("notification", PyVal.str "hi")])
      (Except.ok (some "Bills")) (mkUpdate (PyVal.str "7") "tea")
      { last_purchase := mkLastPurchase (PyVal.int 1) (PyVal.str "USD")
          (PyVal.str "S"), sent := [], ledger := [] }).1 _ rfl,
   (C8_amended_ok_unless_exception (fun _ => Except.error "Expecting value")
      (Except.ok (some "prose")) (PyVal.dict [("notification", PyVal.str "hi")])
      (Except.ok (some "Bills")) (mkUpdate (PyVal.str "7") "tea")
      { last_purchase := mkLastPurchase (PyVal.int 1) (PyVal.str "USD")
          (PyVal.str "S"), sent := [], ledger := [] }).2 _ rfl⟩

/-- C9: a reply with non-empty text arriving while the store still holds
its initial empty dict `{}` hits the unguarded `last_purchase["amount"]`
and fails with a `KeyError` (the missing-required-field error): the handler
does not complete normally, and the state — in particular the ledger — is
unchanged at the raise. -/
theorem C9_reply_empty_store_keyerror (r : String) (idv : PyVal) (t : String)
    (ht : t ≠ "") (st : ServerState) (hst : st.last_purchase = PyVal.dict []) :
    telegram_webhook (Except.ok (some r)) (mkUpdate idv t) st =
      Except.error (PyExc.keyError "amount", st) := by
  have htruthy : pyTruthy (PyVal.str t) = true := by
    simpa [pyTruthy] using ht
  unfold telegram_webhook
  simp [mkUpdate, pyGetD, pyIndex, hst, htruthy, List.lookup_cons]

/-- Witness for C9: the reply `lunch` against the fresh server state. -/
theorem C9_reply_empty_store_keyerror_witness :
    telegram_webhook (Except.ok (some "food"))
        (mkUpdate (PyVal.str "9") "lunch") initState =
      Except.error (PyExc.keyError "amount", initState) :=
  C9_reply_empty_store_keyerror "food" (PyVal.str "9") "lunch"
    (by decide) initState rfl

/-- The first of the keys `amount`, `currency`, `raw_description` missing
from an extraction-result dict, in the order `handle_notification` indexes
them. -/
def firstMissingKey (es : List (String × PyVal)) : Option String :=
  match es.lookup "amount" with
  | Option.none => some "amount"
  | some _ =>
    match es.lookup "currency" with
    | Option.none => some "currency"
    | some _ =>
      match es.lookup "raw_description" with
      | Option.none => some "raw_description"
      | some _ => Option.none

/-- C10: the notification handler tests `is_credit_card` by truthiness and
then indexes the parsed dict unguarded — for every successfully parsed
extraction dict whose `is_credit_card` value is truthy (any truthy value,
not only `True`) but which lacks one of `amount`, `currency`,
`raw_description`, the handler raises an uncaught `KeyError` (for the first
missing key) before the store write: the state is unchanged, no message
was sent, and no `{"ok": True}` response is returned. -/
theorem C10_truthy_flag_missing_key_keyerror
    (jsonLoads : String → Except String PyVal)
    (modelCall : Except PyExc (Option String)) (ds : List (String × PyVal))
    (st : ServerState) (es : List (String × PyVal)) (k : String)
    (hex : extract_transaction_info jsonLoads modelCall =
      Except.ok (PyVal.dict es))
    (hflag : pyTruthy ((es.lookup "is_credit_card").getD PyVal.none) = true)
    (hmiss : firstMissingKey es = some k) :
    handle_notification jsonLoads modelCall (PyVal.dict ds) st =
      Except.error (PyExc.keyError k, st) := by
  unfold handle_notification
  unfold firstMissingKey at hmiss
  cases h1 : es.lookup "amount" with
  | none =>
    rw [h1] at hmiss
    simp at hmiss
    subst hmiss
    simp [pyGetD, hex, hflag, pyIndex, h1]
  | some a =>
    rw [h1] at hmiss
    cases h2 : es.lookup "currency" with
    | none =>
      rw [h2] at hmiss
      simp at hmiss
      subst hmiss
      simp [pyGetD, hex, hflag, pyIndex, h1, h2]
    | some c =>
      rw [h2] at hmiss
      cases h3 : es.lookup "raw_description" with
      | none =>
        rw [h3] at hmiss
        simp at hmiss
        subst hmiss
        simp [pyGetD, hex, hflag, pyIndex, h1, h2, h3]
      | some rr =>
        rw [h3] at hmiss
        simp at hmiss

/-- Witness for C10: the model answers a valid JSON object whose
`is_credit_card` is the truthy integer `1` and which has `amount` but no
`currency`: the handler raises `KeyError: currency` with the state
untouched. -/
theorem C10_truthy_flag_missing_key_keyerror_witness :
    handle_notification
        (fun s => if s = "\x7b\"is_credit_card\": 1, \"amount\": 5\x7d"
          then Except.ok (PyVal.dict
            [("is_credit_card", PyVal.int 1), ("amount", PyVal.int 5)])
          else Except.error "Expecting value")
        (Except.ok (some "\x7b\"is_credit_card\": 1, \"amount\": 5\x7d"))
        (PyVal.dict [("notification", PyVal.str "compra")]) initState =
      Except.error (PyExc.keyError "currency", initState) :=
  C10_truthy_flag_missing_key_keyerror
    (fun s => if s = "\x7b\"is_credit_card\": 1, \"amount\": 5\x7d"
      then Except.ok (PyVal.dict
        [("is_credit_card", PyVal.int 1), ("amount", PyVal.int 5)])
      else Except.error "Expecting value")
    (Except.ok (some "\x7b\"is_credit_card\": 1, \"amount\": 5\x7d"))
    [("notification", PyVal.str "compra")] initState
    [("is_credit_card", PyVal.int 1), ("amount", PyVal.int 5)] "currency"
    (by rfl) (by decide) rfl
